import Mathlib

/-!
Shallow embedding of the soulmaker behaviour-tracker cycle engine
(`soulmaker/behavior_tracker.py`) and proofs of its specification claims.

Modelling conventions:
* JSON values (model replies, API payloads, durable log entries) are the
  inductive `Json`; a parsed Python object is `Json.obj` over an association
  list (duplicate keys are assumed already collapsed by the JSON parser).
* Dataclass fields that Python populates with arbitrary decoded JSON values
  are given type `Json` (the runtime never enforces the `str` annotations).
* The language-model capability is a black box: it is modelled by the parse
  outcome of its reply text, `Except String Json` (`.error` = the reply text
  was not valid JSON, `.ok` = the parsed value); `none` means no provider is
  configured.  The prompt construction is pure string assembly fed to this
  black box, so it does not constrain the reply and is elided.
* Outbound HTTP is the oracle `Env.httpGetJson : String → Except String Json`
  (`client.get(url).json()`: payload or raised transport/format error).
* The durable behaviour log file is `LogContent`: `absent` (no file),
  `corrupt` (file exists but is not parseable JSON), `valid` (a parsed JSON
  array of entries).
* Python exceptions become `Except`; `run_cycle` has no handler, so errors
  raised by `generate_thought` propagate and no state is returned (the
  caller's state is untouched by construction, matching the source, where
  mutation only happens inside `parse_next_action`).
-/

set_option linter.unusedVariables false

namespace Soulmaker

/-- JSON values as produced by `json.loads`. -/
inductive Json where
  | null
  | bool (b : Bool)
  | num (n : Int)
  | str (s : String)
  | arr (elems : List Json)
  | obj (fields : List (String × Json))

/-- Python truthiness of a decoded JSON value
(`None`/`""`/`0`/`False`/`[]`/`{}` are falsy). -/
def jsonTruthy : Json → Bool
  | .null => false
  | .bool b => b
  | .num n => n != 0
  | .str s => s != ""
  | .arr elems => !elems.isEmpty
  | .obj fields => !fields.isEmpty

/-- Python `j == s` for a string literal `s`: true exactly when `j` is that
string (comparison of a non-string with a string is `False`). -/
def Json.isStr : Json → String → Bool
  | .str t, s => t == s
  | _, _ => false

/-- Python truthiness of an `Optional` slot holding a decoded JSON value. -/
def pyTruthyOpt : Option Json → Bool
  | some c => jsonTruthy c
  | none => false

/-- Whether the character list `s` starts with `pat`. -/
def startsWithChars : List Char → List Char → Bool
  | [], _ => true
  | _ :: _, [] => false
  | p :: ps, c :: cs => p == c && startsWithChars ps cs

/-- Whether `pat` occurs contiguously somewhere in `s`. -/
def hasSubChars (pat : List Char) : List Char → Bool
  | [] => startsWithChars pat []
  | c :: cs => startsWithChars pat (c :: cs) || hasSubChars pat cs

/-- Python `kw in s` for strings: substring test. -/
def strContains (s kw : String) : Bool :=
  hasSubChars kw.toList s.toList

/-- `dataclass HistoryEntry`: a past behaviour span. -/
structure HistoryEntry where
  start : Json
  «end» : Json
  activity : Json

/-- `dataclass Memory`: mutable memory between cycles. -/
structure Memory where
  last_query : Json := .str ""
  last_api_results : List (String × Json) := []

/-- `dataclass BehaviorState`: session state threaded through cycles. -/
structure BehaviorState where
  current_time : String
  history : List HistoryEntry := []
  memory : Memory := {}

/-- `dataclass BehaviorRecord`: a finalized behaviour decision. -/
structure BehaviorRecord where
  start : Json
  «end» : Json
  activity : Json
  cause : Json
  mood : Json
  notes : Json

/-- `dataclass NextAction`: the action proposed by the model.  `type` is the
decoded `next_action.get("type", "idle")` value (any JSON value at runtime;
the dispatch in `parse_next_action` compares it against string literals). -/
structure NextAction where
  type : Json
  content : Option Json := none
  behavior : Option BehaviorRecord := none

/-- `dataclass ThoughtOutput`: the model's structured reply for one cycle. -/
structure ThoughtOutput where
  thought : Json
  next_action : NextAction

/-- Error taxonomy of a cycle: `providerUnavailable` models the
`RuntimeError("No LLM provider configured")`; `malformedModelOutput` models
the uncaught decode exceptions (`json.JSONDecodeError` from `json.loads`,
`AttributeError`/`TypeError` from shape violations while building the
`NextAction` and `BehaviorRecord`). -/
inductive CycleError where
  | providerUnavailable
  | malformedModelOutput (msg : String)

/-- State of the durable behaviour-log file `behavior_log.json`. -/
inductive LogContent where
  | absent
  | corrupt (raw : String)
  | valid (entries : List Json)

/-- External HTTP capability: `client.get(url).json()` returns the decoded
payload or raises (transport error, timeout, non-JSON body). -/
structure Env where
  httpGetJson : String → Except String Json

/-- Python `j[k]` on a decoded JSON value: `KeyError` when the key is absent,
`TypeError` when `j` is not an object. -/
def jsonGetKey (j : Json) (k : String) : Except String Json :=
  match j with
  | .obj fields =>
    match fields.lookup k with
    | some v => .ok v
    | none => .error ("KeyError: " ++ k)
  | _ => .error "TypeError: value is not subscriptable by str"

/-- Python `j[i]` on a decoded JSON value: `IndexError` out of range,
`TypeError` when `j` is not an array. -/
def jsonGetIdx (j : Json) (i : Nat) : Except String Json :=
  match j with
  | .arr elems =>
    match elems.get? i with
    | some v => .ok v
    | none => .error "IndexError: list index out of range"
  | _ => .error "TypeError: value is not subscriptable by int"

/-- Python `kw in c` for a decoded JSON value `c`: substring test on strings,
element equality on arrays, key membership on objects, `TypeError` (raised)
otherwise. -/
def pyIn (kw : String) (c : Json) : Except String Bool :=
  match c with
  | .str s => .ok (strContains s kw)
  | .arr elems => .ok (elems.any (fun e => e.isStr kw))
  | .obj fields => .ok (fields.any (fun p => p.1 == kw))
  | _ => .error "TypeError: argument of this type is not iterable"

/-- Body of the weather branch of `call_external_api`:
`data["current_condition"][0]["temp_C"] + "°C"` fetched from
`wttr.in/<location>?format=j1`; any raised error propagates to the caller's
handler. -/
def weather_lookup (env : Env) (content : Json) : Except String (List (String × Json)) :=
  match content with
  | .str s =>
    match env.httpGetJson ("https://wttr.in/" ++ ((s.replace "天气" "").trim) ++ "?format=j1") with
    | .error e => .error e
    | .ok data =>
      match jsonGetKey data "current_condition" with
      | .error e => .error e
      | .ok cc =>
        match jsonGetIdx cc 0 with
        | .error e => .error e
        | .ok first =>
          match jsonGetKey first "temp_C" with
          | .error e => .error e
          | .ok temp =>
            match temp with
            | .str t => .ok [("weather", Json.str (t ++ "°C"))]
            | _ => .error "TypeError: can only concatenate str to str"
  | _ => .error "AttributeError: object has no attribute replace"

/-- Body of the bilibili branch of `call_external_api`: the raw payload of
`https://tenapi.cn/v2/bilibili`. -/
def bilibili_lookup (env : Env) : Except String (List (String × Json)) :=
  match env.httpGetJson "https://tenapi.cn/v2/bilibili" with
  | .error e => .error e
  | .ok data => .ok [("bilibili", data)]

/-- The `try` block of `call_external_api`: keyword dispatch to a source, or
the `no_api` notice; raised errors escape to the surrounding handler. -/
def gateway_try (env : Env) (content : Json) : Except String (List (String × Json)) :=
  match pyIn "天气" content with
  | .error e => .error e
  | .ok true => weather_lookup env content
  | .ok false =>
    match pyIn "B站" content with
    | .error e => .error e
    | .ok true => bilibili_lookup env
    | .ok false =>
      match pyIn "Bilibili" content with
      | .error e => .error e
      | .ok true => bilibili_lookup env
      | .ok false => .ok [("info", Json.str "no_api")]

/-- `BehaviorTracker.call_external_api`: dispatch on keywords inside a
catch-all `except Exception` handler that folds every raised error into the
result mapping; hence this boundary is total. -/
def call_external_api (env : Env) (content : Json) : List (String × Json) :=
  match gateway_try env content with
  | .ok result => result
  | .error exc => [("error", Json.str exc)]

/-- `behavior.__dict__` as appended to the durable log: the six record fields
in dataclass declaration order. -/
def record_to_json (b : BehaviorRecord) : Json :=
  .obj [("start", b.start), ("end", b.«end»), ("activity", b.activity),
        ("cause", b.cause), ("mood", b.mood), ("notes", b.notes)]

/-- The collection `save_behavior` starts from: the parsed existing log, or
the empty collection when the file is absent or its content is unparseable
(`json.JSONDecodeError` is swallowed). -/
def log_entries : LogContent → List Json
  | .valid entries => entries
  | .absent => []
  | .corrupt _ => []

/-- `BehaviorTracker.save_behavior`: read the existing log (an absent file or
a `json.JSONDecodeError` both restart from the empty collection), append the
record's dict, and write the whole collection back. -/
def save_behavior (log : LogContent) (b : BehaviorRecord) : LogContent :=
  .valid (log_entries log ++ [record_to_json b])

/-- N sequential `save_behavior` appends (no concurrent writers). -/
def append_all (log : LogContent) (bs : List BehaviorRecord) : LogContent :=
  bs.foldl save_behavior log

/-- `BehaviorRecord(**fields)`: constructing the dataclass from decoded
keyword arguments requires exactly the six declared field names (a missing
required field or an unexpected keyword raises `TypeError`). -/
def decode_record (fields : List (String × Json)) : Except CycleError BehaviorRecord :=
  if fields.all (fun p => ["start", "end", "activity", "cause", "mood", "notes"].contains p.1) then
    match fields.lookup "start", fields.lookup "end", fields.lookup "activity",
          fields.lookup "cause", fields.lookup "mood", fields.lookup "notes" with
    | some s, some e, some a, some c, some m, some n =>
      .ok { start := s, «end» := e, activity := a, cause := c, mood := m, notes := n }
    | _, _, _, _, _, _ => .error (.malformedModelOutput "missing required behaviour field")
  else .error (.malformedModelOutput "unexpected keyword argument")

/-- Decoding the parsed model reply into a `ThoughtOutput`
(`generate_thought` lines after `json.loads`):
`next_action = data.get("next_action", {})`; a `BehaviorRecord` is built iff
`next_action.get("type") == "final_decision"` and `next_action.get("behavior")`
is truthy; `type` defaults to `"idle"`, `content` is taken as is, `thought`
defaults to `""`.  Shape violations (reply or `next_action` or `behavior` not
an object where an object is required) raise and surface as
`malformedModelOutput`.  This definition is the conditional
`BehaviorRecord(**next_action["behavior"]) if ... else None` expression, taking
the looked-up `type` and `behavior` slots of `next_action`. -/
def decode_behavior_slot (tyLookup : Option Json) (behaviorVal : Option Json) :
    Except CycleError (Option BehaviorRecord) :=
  if (match tyLookup with
      | some j => j.isStr "final_decision"
      | none => false)
      && jsonTruthy (behaviorVal.getD .null) then
    match behaviorVal with
    | some (.obj bfs) =>
      match decode_record bfs with
      | .ok b => .ok (some b)
      | .error e => .error e
    | _ => .error (.malformedModelOutput "behavior is not a mapping")
  else .ok none

/-- Decoding part of `generate_thought` continued: assemble the
`ThoughtOutput` from the parsed reply. -/
def decode_thought (data : Json) : Except CycleError ThoughtOutput :=
  match data with
  | .obj fs =>
    match (fs.lookup "next_action").getD (.obj []) with
    | .obj nfs =>
      match decode_behavior_slot (nfs.lookup "type") (nfs.lookup "behavior") with
      | .error e => .error e
      | .ok behavior =>
        .ok { thought := (fs.lookup "thought").getD (.str "")
              next_action :=
                { type := (nfs.lookup "type").getD (.str "idle")
                  content := nfs.lookup "content"
                  behavior := behavior } }
    | _ => .error (.malformedModelOutput "next_action is not a mapping")
  | _ => .error (.malformedModelOutput "model reply is not a JSON object")

/-- `BehaviorTracker.generate_thought`: fail when no provider is configured;
otherwise parse the reply text as JSON (`json.loads` failure =
`malformedModelOutput`) and decode it.  The prompt built from `state` goes to
the black-box provider and does not constrain the reply, which is modelled as
an arbitrary parse outcome. -/
def generate_thought (provider : Option (Except String Json)) (state : BehaviorState) :
    Except CycleError ThoughtOutput :=
  match provider with
  | none => .error .providerUnavailable
  | some (.error msg) => .error (.malformedModelOutput msg)
  | some (.ok data) => decode_thought data

/-- `BehaviorTracker.parse_next_action`: `query` with truthy content sets
`memory.last_query` and replaces `memory.last_api_results` with the gateway
result; `final_decision` with a present record appends a derived
`HistoryEntry` and saves the record to the log; anything else is a no-op. -/
def parse_next_action (env : Env) (output : ThoughtOutput) (state : BehaviorState)
    (log : LogContent) : BehaviorState × LogContent :=
  let action := output.next_action
  if action.type.isStr "query" && pyTruthyOpt action.content then
    match action.content with
    | some c =>
      let api_result := call_external_api env c
      ({ state with memory := { last_query := c, last_api_results := api_result } }, log)
    | none => (state, log)
  else if action.type.isStr "final_decision" && action.behavior.isSome then
    match action.behavior with
    | some b =>
      ({ state with
          history := state.history ++
            [{ start := b.start, «end» := b.«end», activity := b.activity }] },
       save_behavior log b)
    | none => (state, log)
  else (state, log)

/-- `BehaviorTracker.accumulate_context`: reassigns
`state.memory.last_api_results` to its own current value (the `getattr`
fallback never fires on a well-typed `Memory`), so the state is returned
unchanged. -/
def accumulate_context (state : BehaviorState) (output : ThoughtOutput) : BehaviorState :=
  { state with
      memory := { state.memory with last_api_results := state.memory.last_api_results } }

/-- `BehaviorTracker.run_cycle`: generate a thought (errors propagate — there
is no handler), interpret the action, run the context-accumulation step, and
return the updated state together with the updated durable log. -/
def run_cycle (env : Env) (provider : Option (Except String Json)) (state : BehaviorState)
    (log : LogContent) : Except CycleError (BehaviorState × LogContent) :=
  match generate_thought provider state with
  | .error e => .error e
  | .ok output =>
    let new_state := parse_next_action env output state log
    .ok (accumulate_context new_state.1 output, new_state.2)

/-- Concrete offline environment: every outbound HTTP call fails. -/
def envOffline : Env := ⟨fun _ => .error "offline"⟩

/-- Concrete session state from the spec example (section 8). -/
def state0 : BehaviorState := { current_time := "14:30" }

/-- Concrete behaviour record from the spec example (section 8). -/
def record0 : BehaviorRecord :=
  { start := .str "14:30", «end» := .str "15:00", activity := .str "coding",
    cause := .str "deadline", mood := .str "focused", notes := .str "" }

/-- History entry derived from `record0`. -/
def entry0 : HistoryEntry :=
  { start := .str "14:30", «end» := .str "15:00", activity := .str "coding" }

/-- Concrete `final_decision` thought output committing `record0`. -/
def output_final0 : ThoughtOutput :=
  { thought := .str "tired",
    next_action := { type := .str "final_decision", behavior := some record0 } }

/-- Concrete `query` thought output. -/
def output_query0 : ThoughtOutput :=
  { thought := .str "curious",
    next_action := { type := .str "query", content := some (.str "东京天气") } }

/-- Concrete parsed model reply proposing `idle`. -/
def reply_idle0 : Json :=
  .obj [("thought", .str "zzz"), ("next_action", .obj [("type", .str "idle")])]

/-- Concrete parsed model reply whose `next_action` lacks a `type` key. -/
def reply_noType0 : Json :=
  .obj [("next_action", .obj [("content", .str "later")])]

/-- Concrete parsed model reply committing `record0` as a final decision. -/
def reply_final0 : Json :=
  .obj [("next_action", .obj
    [("type", .str "final_decision"),
     ("behavior", .obj
       [("start", .str "14:30"), ("end", .str "15:00"), ("activity", .str "coding"),
        ("cause", .str "deadline"), ("mood", .str "focused"), ("notes", .str "")])])]

/-- `j == s` in Python succeeds exactly when `j` is the string `s`. -/
theorem Json.isStr_iff (j : Json) (s : String) : j.isStr s = true ↔ j = .str s := by
  cases j <;> simp [Json.isStr]

/-- The context-accumulation step is the identity on the state. -/
theorem accumulate_context_id (S : BehaviorState) (o : ThoughtOutput) :
    accumulate_context S o = S := rfl

/-- `parse_next_action` on a truthy `query` action: memory is overwritten with
the query and the gateway result; nothing else changes. -/
theorem parse_query_branch (env : Env) (out : ThoughtOutput) (S : BehaviorState)
    (log : LogContent) (c : Json)
    (hty : out.next_action.type = .str "query")
    (hc : out.next_action.content = some c)
    (htr : jsonTruthy c = true) :
    parse_next_action env out S log =
      ({ S with memory :=
          { last_query := c, last_api_results := call_external_api env c } }, log) := by
  simp [parse_next_action, hty, hc, htr, Json.isStr, pyTruthyOpt]

/-- `parse_next_action` on a `final_decision` action with a present record:
the derived entry is appended to history and the record saved to the log. -/
theorem parse_final_branch (env : Env) (out : ThoughtOutput) (S : BehaviorState)
    (log : LogContent) (b : BehaviorRecord)
    (hty : out.next_action.type = .str "final_decision")
    (hb : out.next_action.behavior = some b) :
    parse_next_action env out S log =
      ({ S with history := S.history ++
          [{ start := b.start, «end» := b.«end», activity := b.activity }] },
       save_behavior log b) := by
  simp [parse_next_action, hty, hb, Json.isStr, pyTruthyOpt]

/-- `parse_next_action` is a no-op when neither branch guard holds. -/
theorem parse_noop (env : Env) (out : ThoughtOutput) (S : BehaviorState) (log : LogContent)
    (h1 : (out.next_action.type.isStr "query" && pyTruthyOpt out.next_action.content) = false)
    (h2 : (out.next_action.type.isStr "final_decision"
            && out.next_action.behavior.isSome) = false) :
    parse_next_action env out S log = (S, log) := by
  simp [parse_next_action, h1, h2]

/-- C1: for every state and every thought output whose next action has type
`final_decision` with a present behaviour record `b`, interpreting the action
returns a state whose history has length exactly one more than before, with
the new entry appended at the end carrying `b`'s start, end, and activity, and
the full record appended to the durable behaviour log. -/
theorem c1_final_decision_appends_history_and_log (env : Env) (S : BehaviorState)
    (log : LogContent) (output : ThoughtOutput) (b : BehaviorRecord)
    (hty : output.next_action.type = .str "final_decision")
    (hb : output.next_action.behavior = some b) :
    (parse_next_action env output S log).1.history.length = S.history.length + 1
    ∧ (parse_next_action env output S log).1.history
        = S.history ++ [{ start := b.start, «end» := b.«end», activity := b.activity }]
    ∧ (parse_next_action env output S log).2
        = .valid (log_entries log ++ [record_to_json b]) := by
  rw [parse_final_branch env output S log b hty hb]
  exact ⟨by simp, rfl, rfl⟩

/-- Witness for C1 at the spec's section-8 example input. -/
theorem c1_witness :
    (parse_next_action envOffline output_final0 state0 .absent).1.history.length
        = state0.history.length + 1
    ∧ (parse_next_action envOffline output_final0 state0 .absent).1.history
        = state0.history ++
            [{ start := record0.start, «end» := record0.«end», activity := record0.activity }]
    ∧ (parse_next_action envOffline output_final0 state0 .absent).2
        = .valid (log_entries .absent ++ [record_to_json record0]) :=
  c1_final_decision_appends_history_and_log envOffline state0 .absent output_final0 record0
    rfl rfl

/-- C2: for every state and every thought output whose next action has type
`query` with truthy (non-empty) content `c`, after interpreting the action the
memory's `last_query` equals `c` and `last_api_results` equals exactly the
gateway's returned mapping for `c` (fully replaced, never merged). -/
theorem c2_query_overwrites_memory (env : Env) (S : BehaviorState) (log : LogContent)
    (output : ThoughtOutput) (c : Json)
    (hty : output.next_action.type = .str "query")
    (hc : output.next_action.content = some c)
    (htr : jsonTruthy c = true) :
    (parse_next_action env output S log).1.memory.last_query = c
    ∧ (parse_next_action env output S log).1.memory.last_api_results
        = call_external_api env c := by
  rw [parse_query_branch env output S log c hty hc htr]
  exact ⟨rfl, rfl⟩

/-- Witness for C2 at a concrete weather query. -/
theorem c2_witness :
    (parse_next_action envOffline output_query0 state0 .absent).1.memory.last_query
        = .str "东京天气"
    ∧ (parse_next_action envOffline output_query0 state0 .absent).1.memory.last_api_results
        = call_external_api envOffline (.str "东京天气") :=
  c2_query_overwrites_memory envOffline state0 .absent output_query0 (.str "东京天气")
    rfl rfl rfl

/-- C8: with no language-model capability configured, `generate_thought` (and
hence `run_cycle`) fails with the provider-unavailable error, surfaced to the
caller; no state is returned, so the input state is untouched. -/
theorem c8_no_provider_fails (env : Env) (S : BehaviorState) (log : LogContent) :
    generate_thought none S = .error .providerUnavailable
    ∧ run_cycle env none S log = .error .providerUnavailable :=
  ⟨rfl, rfl⟩

/-- `parse_next_action` never changes `current_time`. -/
theorem parse_preserves_current_time (env : Env) (out : ThoughtOutput) (S : BehaviorState)
    (log : LogContent) :
    (parse_next_action env out S log).1.current_time = S.current_time := by
  simp only [parse_next_action]
  split
  · split <;> rfl
  · split
    · split <;> rfl
    · rfl

/-- C10: interpreting any action followed by the context-accumulation step
never changes `current_time`; a `final_decision` action (any content, any
record slot) leaves the memory unchanged; a `query` action (any content, any
record slot) leaves the history unchanged. -/
theorem c10_interpreter_frame_effects (env : Env) (S : BehaviorState) (log : LogContent)
    (output : ThoughtOutput) (th : Json) (co : Option Json) (bh : Option BehaviorRecord) :
    (accumulate_context (parse_next_action env output S log).1 output).current_time
        = S.current_time
    ∧ (accumulate_context
        (parse_next_action env ⟨th, ⟨.str "final_decision", co, bh⟩⟩ S log).1
        ⟨th, ⟨.str "final_decision", co, bh⟩⟩).memory = S.memory
    ∧ (accumulate_context
        (parse_next_action env ⟨th, ⟨.str "query", co, bh⟩⟩ S log).1
        ⟨th, ⟨.str "query", co, bh⟩⟩).history = S.history := by
  refine ⟨?_, ?_, ?_⟩
  · rw [accumulate_context_id]
    exact parse_preserves_current_time env output S log
  · rw [accumulate_context_id]
    cases bh with
    | none => simp [parse_next_action, Json.isStr]
    | some b => simp [parse_next_action, Json.isStr]
  · rw [accumulate_context_id]
    cases co with
    | none => simp [parse_next_action, Json.isStr, pyTruthyOpt]
    | some c =>
      cases htr : jsonTruthy c with
      | false => simp [parse_next_action, Json.isStr, pyTruthyOpt, htr]
      | true => simp [parse_next_action, Json.isStr, pyTruthyOpt, htr]

/-- C3: an `idle` action, a `query` action with falsy (empty/absent) content,
or a `final_decision` action with no record leaves the state and the log
structurally unchanged when interpreted; consequently `run_cycle` on a model
response decoding to such an action returns the input state unchanged. -/
theorem c3_idle_like_actions_are_noops (env : Env) (provider : Option (Except String Json))
    (S : BehaviorState) (log : LogContent) (output : ThoughtOutput)
    (h : output.next_action.type = .str "idle"
       ∨ (output.next_action.type = .str "query"
            ∧ pyTruthyOpt output.next_action.content = false)
       ∨ (output.next_action.type = .str "final_decision"
            ∧ output.next_action.behavior = none)) :
    parse_next_action env output S log = (S, log)
    ∧ (generate_thought provider S = .ok output →
        run_cycle env provider S log = .ok (S, log)) := by
  have hparse : parse_next_action env output S log = (S, log) := by
    rcases h with hty | ⟨hty, hco⟩ | ⟨hty, hbh⟩
    · exact parse_noop env output S log (by simp [hty, Json.isStr])
        (by simp [hty, Json.isStr])
    · exact parse_noop env output S log (by simp [hco])
        (by simp [hty, Json.isStr])
    · exact parse_noop env output S log (by simp [hty, Json.isStr])
        (by simp [hbh])
  refine ⟨hparse, fun hgen => ?_⟩
  simp [run_cycle, hgen, hparse, accumulate_context_id]

/-- Witness for C3 at a concrete idle reply. -/
theorem c3_witness :
    parse_next_action envOffline ⟨.str "zzz", ⟨.str "idle", none, none⟩⟩ state0 .absent
        = (state0, .absent)
    ∧ run_cycle envOffline (some (.ok reply_idle0)) state0 .absent = .ok (state0, .absent) := by
  have h := c3_idle_like_actions_are_noops envOffline (some (.ok reply_idle0)) state0 .absent
    ⟨.str "zzz", ⟨.str "idle", none, none⟩⟩ (Or.inl rfl)
  exact ⟨h.1, h.2 rfl⟩

/-- Case analysis of the interpreter on the history component: either the
history is returned untouched, or the action was a committed `final_decision`
and exactly one derived entry was appended at the end. -/
theorem parse_history_shape (env : Env) (out : ThoughtOutput) (S : BehaviorState)
    (log : LogContent) :
    (parse_next_action env out S log).1.history = S.history
    ∨ ((∃ entry, (parse_next_action env out S log).1.history = S.history ++ [entry])
        ∧ out.next_action.type = .str "final_decision"
        ∧ out.next_action.behavior.isSome = true) := by
  simp only [parse_next_action]
  split
  · split
    · left; rfl
    · left; rfl
  · split
    · split
      · next hguard _ b _ =>
        right
        rw [Bool.and_eq_true, Json.isStr_iff] at hguard
        exact ⟨⟨_, rfl⟩, hguard.1, hguard.2⟩
      · left; rfl
    · left; rfl

/-- C5: across any single interpretation and any successful cycle, the history
only grows: the output history is the input history or the input history with
exactly one entry appended at the end (no deletion, no reordering), and it
differs from the input only when the action was a `final_decision` carrying a
present record. -/
theorem c5_history_only_grows (env : Env) (provider : Option (Except String Json))
    (S : BehaviorState) (log : LogContent) (output : ThoughtOutput)
    (S2 : BehaviorState) (log2 : LogContent) :
    ((parse_next_action env output S log).1.history = S.history
      ∨ ∃ entry, (parse_next_action env output S log).1.history = S.history ++ [entry])
    ∧ ((parse_next_action env output S log).1.history ≠ S.history →
        output.next_action.type = .str "final_decision"
        ∧ output.next_action.behavior.isSome = true)
    ∧ (run_cycle env provider S log = .ok (S2, log2) →
        S2.history = S.history ∨ ∃ entry, S2.history = S.history ++ [entry]) := by
  refine ⟨?_, ?_, ?_⟩
  · rcases parse_history_shape env output S log with hsame | ⟨⟨entry, happ⟩, _, _⟩
    · exact Or.inl hsame
    · exact Or.inr ⟨entry, happ⟩
  · intro hne
    rcases parse_history_shape env output S log with hsame | ⟨_, hty, hbh⟩
    · exact absurd hsame hne
    · exact ⟨hty, hbh⟩
  · intro hrun
    unfold run_cycle at hrun
    cases hgen : generate_thought provider S with
    | error e => rw [hgen] at hrun; exact absurd hrun (by simp)
    | ok out2 =>
      rw [hgen] at hrun
      simp only [accumulate_context_id, Except.ok.injEq, Prod.mk.injEq] at hrun
      rcases parse_history_shape env out2 S log with hsame | ⟨⟨entry, happ⟩, _, _⟩
      · exact Or.inl (by rw [← hrun.1, hsame])
      · exact Or.inr ⟨entry, by rw [← hrun.1, happ]⟩

/-- Witness for C5: a committed final decision grows the history by one, both
through the interpreter and through a full cycle. -/
theorem c5_witness :
    ((parse_next_action envOffline output_final0 state0 .absent).1.history = state0.history
      ∨ ∃ entry, (parse_next_action envOffline output_final0 state0 .absent).1.history
          = state0.history ++ [entry])
    ∧ (output_final0.next_action.type = .str "final_decision"
        ∧ output_final0.next_action.behavior.isSome = true)
    ∧ (({ current_time := "14:30", history := [entry0] } : BehaviorState).history
            = state0.history
        ∨ ∃ entry, ({ current_time := "14:30", history := [entry0] } : BehaviorState).history
            = state0.history ++ [entry]) := by
  have h := c5_history_only_grows envOffline (some (.ok reply_final0)) state0 .absent
    output_final0 { current_time := "14:30", history := [entry0] }
    (.valid [record_to_json record0])
  have hne : (parse_next_action envOffline output_final0 state0 .absent).1.history
      ≠ state0.history := by
    have hred : (parse_next_action envOffline output_final0 state0 .absent).1.history
        = state0.history ++ [entry0] := rfl
    rw [hred]
    simp [state0]
  exact ⟨h.1, h.2.1 hne, h.2.2 rfl⟩

/-- Every `decode_record` failure is a malformed-output error. -/
theorem decode_record_error_shape (fields : List (String × Json)) (e : CycleError)
    (h : decode_record fields = .error e) : ∃ m, e = .malformedModelOutput m := by
  unfold decode_record at h
  split at h
  · split at h
    · exact absurd h (by simp)
    · simp only [Except.error.injEq] at h
      exact ⟨_, h.symm⟩
  · simp only [Except.error.injEq] at h
    exact ⟨_, h.symm⟩

/-- Every `decode_behavior_slot` failure is a malformed-output error. -/
theorem decode_behavior_slot_error_shape (tyLookup behaviorVal : Option Json) (e : CycleError)
    (h : decode_behavior_slot tyLookup behaviorVal = .error e) :
    ∃ m, e = .malformedModelOutput m := by
  unfold decode_behavior_slot at h
  split at h
  · split at h
    · split at h
      · exact absurd h (by simp)
      · simp only [Except.error.injEq] at h
        subst h
        exact decode_record_error_shape _ _ (by assumption)
    · simp only [Except.error.injEq] at h
      exact ⟨_, h.symm⟩
  · exact absurd h (by simp)

/-- Every `decode_thought` failure is a malformed-output error. -/
theorem decode_thought_error_shape (data : Json) (e : CycleError)
    (h : decode_thought data = .error e) : ∃ m, e = .malformedModelOutput m := by
  unfold decode_thought at h
  split at h
  · split at h
    · split at h
      · simp only [Except.error.injEq] at h
        subst h
        exact decode_behavior_slot_error_shape _ _ _ (by assumption)
      · exact absurd h (by simp)
    · simp only [Except.error.injEq] at h
      exact ⟨_, h.symm⟩
  · simp only [Except.error.injEq] at h
    exact ⟨_, h.symm⟩

/-- C4: when the provider's reply text is not valid JSON, or is valid JSON
lacking the expected shape (any decode failure, including a `final_decision`
behaviour object missing required fields), the cycle fails with a
malformed-model-output error that propagates to the caller; no updated state
is produced, so the input state is untouched. -/
theorem c4_malformed_output_propagates (env : Env) (S : BehaviorState) (log : LogContent) :
    (∀ msg : String, run_cycle env (some (.error msg)) S log
        = .error (.malformedModelOutput msg))
    ∧ (∀ (data : Json) (e : CycleError), decode_thought data = .error e →
        (∃ m, e = .malformedModelOutput m)
        ∧ run_cycle env (some (.ok data)) S log = .error e) := by
  constructor
  · intro msg
    rfl
  · intro data e hdec
    refine ⟨decode_thought_error_shape data e hdec, ?_⟩
    simp [run_cycle, generate_thought, hdec]

/-- Witness for C4: non-JSON reply text, and a valid-JSON reply whose
`final_decision` behaviour object is missing required fields. -/
theorem c4_witness :
    run_cycle envOffline (some (.error "Expecting value")) state0 .absent
        = .error (.malformedModelOutput "Expecting value")
    ∧ run_cycle envOffline
        (some (.ok (.obj [("next_action", .obj
          [("type", .str "final_decision"), ("behavior", .obj [("start", .str "9:00")])])])))
        state0 .absent
        = .error (.malformedModelOutput "missing required behaviour field") := by
  have h := c4_malformed_output_propagates envOffline state0 .absent
  exact ⟨h.1 "Expecting value",
    (h.2 (.obj [("next_action", .obj
      [("type", .str "final_decision"), ("behavior", .obj [("start", .str "9:00")])])])
      (.malformedModelOutput "missing required behaviour field") rfl).2⟩

/-- C9: a valid-JSON reply whose `next_action` object lacks a `type` key (or
whose `next_action` is defaulted because the key is absent), or carries a type
string other than `query` and `final_decision`, decodes without error; a
missing type defaults to `idle`, interpreting the decoded action leaves the
state unchanged, and the whole cycle completes without error. -/
theorem c9_unrecognized_type_defaults_to_noop (env : Env) (S : BehaviorState)
    (log : LogContent) (fs nfs : List (String × Json))
    (hna : (fs.lookup "next_action").getD (.obj []) = .obj nfs)
    (hty : nfs.lookup "type" = none
         ∨ ∃ t, nfs.lookup "type" = some (.str t)
             ∧ t ≠ "query" ∧ t ≠ "final_decision") :
    ∃ out, decode_thought (.obj fs) = .ok out
      ∧ (nfs.lookup "type" = none → out.next_action.type = .str "idle")
      ∧ parse_next_action env out S log = (S, log)
      ∧ run_cycle env (some (.ok (.obj fs))) S log = .ok (S, log) := by
  have hslot : decode_behavior_slot (nfs.lookup "type") (nfs.lookup "behavior")
      = .ok none := by
    rcases hty with h | ⟨t, h, hq, hf⟩
    · simp [decode_behavior_slot, h]
    · simp [decode_behavior_slot, h, Json.isStr, hf]
  have hdec : decode_thought (.obj fs) = .ok
      { thought := (fs.lookup "thought").getD (.str "")
        next_action :=
          { type := (nfs.lookup "type").getD (.str "idle")
            content := nfs.lookup "content"
            behavior := none } } := by
    simp [decode_thought, hna, hslot]
  refine ⟨_, hdec, ?_, ?_, ?_⟩
  · intro hnone
    simp [hnone]
  · rcases hty with h | ⟨t, h, hq, hf⟩
    · exact parse_noop env _ S log (by simp [h, Json.isStr]) (by simp [h, Json.isStr])
    · exact parse_noop env _ S log (by simp [h, Json.isStr, hq]) (by simp [h, Json.isStr, hf])
  · have hparse : parse_next_action env
        { thought := (fs.lookup "thought").getD (.str "")
          next_action :=
            { type := (nfs.lookup "type").getD (.str "idle")
              content := nfs.lookup "content"
              behavior := none } } S log = (S, log) := by
      rcases hty with h | ⟨t, h, hq, hf⟩
      · exact parse_noop env _ S log (by simp [h, Json.isStr]) (by simp [h, Json.isStr])
      · exact parse_noop env _ S log (by simp [h, Json.isStr, hq])
          (by simp [h, Json.isStr, hf])
    simp [run_cycle, generate_thought, hdec, hparse, accumulate_context_id]

/-- Witness for C9 at a reply whose `next_action` has only a `content` key. -/
theorem c9_witness :
    ∃ out, decode_thought reply_noType0 = .ok out
      ∧ ([("content", Json.str "later")].lookup "type" = none →
          out.next_action.type = .str "idle")
      ∧ parse_next_action envOffline out state0 .absent = (state0, .absent)
      ∧ run_cycle envOffline (some (.ok reply_noType0)) state0 .absent
          = .ok (state0, .absent) :=
  c9_unrecognized_type_defaults_to_noop envOffline state0 .absent
    [("next_action", .obj [("content", .str "later")])] [("content", .str "later")]
    rfl (Or.inl rfl)

/-- A successful weather lookup yields a singleton `weather` mapping holding
text. -/
theorem weather_lookup_ok_shape (env : Env) (content : Json)
    (r : List (String × Json)) (h : weather_lookup env content = .ok r) :
    ∃ t, r = [("weather", Json.str t)] := by
  unfold weather_lookup at h
  split at h
  · split at h
    · exact absurd h (by simp)
    · split at h
      · exact absurd h (by simp)
      · split at h
        · exact absurd h (by simp)
        · split at h
          · exact absurd h (by simp)
          · split at h
            · simp only [Except.ok.injEq] at h
              exact ⟨_, h.symm⟩
            · exact absurd h (by simp)
  · exact absurd h (by simp)

/-- A successful bilibili lookup yields a singleton `bilibili` mapping holding
the raw payload. -/
theorem bilibili_lookup_ok_shape (env : Env) (r : List (String × Json))
    (h : bilibili_lookup env = .ok r) : ∃ payload, r = [("bilibili", payload)] := by
  unfold bilibili_lookup at h
  split at h
  · exact absurd h (by simp)
  · simp only [Except.ok.injEq] at h
    exact ⟨_, h.symm⟩

/-- A `try`-block success is one of the three recognized success mappings. -/
theorem gateway_try_ok_shape (env : Env) (content : Json) (r : List (String × Json))
    (h : gateway_try env content = .ok r) :
    (∃ t, r = [("weather", Json.str t)])
    ∨ (∃ payload, r = [("bilibili", payload)])
    ∨ r = [("info", Json.str "no_api")] := by
  unfold gateway_try at h
  split at h
  · exact absurd h (by simp)
  · exact Or.inl (weather_lookup_ok_shape env content r h)
  · split at h
    · exact absurd h (by simp)
    · exact Or.inr (Or.inl (bilibili_lookup_ok_shape env r h))
    · split at h
      · exact absurd h (by simp)
      · exact Or.inr (Or.inl (bilibili_lookup_ok_shape env r h))
      · simp only [Except.ok.injEq] at h
        exact Or.inr (Or.inr h.symm)

/-- C6: for every query content and every behaviour of the underlying source,
the gateway returns a plain result mapping (it is a total function: no
exception crosses its boundary), and that mapping is one of the recognized
outcomes: a `weather` text, a `bilibili` raw payload, the `no_api` notice, or
an `error` message when the source failed. -/
theorem c6_gateway_total_and_shaped (env : Env) (content : Json) :
    (∃ t, call_external_api env content = [("weather", Json.str t)])
    ∨ (∃ payload, call_external_api env content = [("bilibili", payload)])
    ∨ call_external_api env content = [("info", Json.str "no_api")]
    ∨ (∃ msg, call_external_api env content = [("error", Json.str msg)]) := by
  unfold call_external_api
  cases h : gateway_try env content with
  | ok r =>
    rcases gateway_try_ok_shape env content r h with ⟨t, ht⟩ | ⟨p, hp⟩ | hi
    · exact Or.inl ⟨t, by rw [ht]⟩
    · exact Or.inr (Or.inl ⟨p, by rw [hp]⟩)
    · exact Or.inr (Or.inr (Or.inl (by rw [hi])))
  | error exc =>
    exact Or.inr (Or.inr (Or.inr ⟨exc, rfl⟩))

/-- Appending records to a parseable durable collection appends their dicts in
commit order. -/
theorem append_all_from_valid (bs : List BehaviorRecord) (rs : List Json) :
    append_all (.valid rs) bs = .valid (rs ++ bs.map record_to_json) := by
  induction bs generalizing rs with
  | nil => simp [append_all]
  | cons b bs ih =>
    show append_all (save_behavior (.valid rs) b) bs = _
    rw [show save_behavior (.valid rs) b = .valid (rs ++ [record_to_json b]) from rfl, ih]
    simp

/-- C7: appending `N ≥ 1` behaviour records sequentially (no concurrent
writers) to a durable log that is absent or corrupt succeeds rather than
failing: the corrupt or missing content is discarded, and the resulting
durable log is exactly the `N` records' dicts in commit order (hence has
length `N`, with each record's six fields preserved). -/
theorem c7_sequential_append_durable (log : LogContent) (b : BehaviorRecord)
    (bs : List BehaviorRecord)
    (h : log = .absent ∨ ∃ s, log = .corrupt s) :
    append_all log (b :: bs) = .valid ((b :: bs).map record_to_json)
    ∧ (log_entries (append_all log (b :: bs))).length = (b :: bs).length := by
  have hstep : append_all log (b :: bs)
      = append_all (.valid [record_to_json b]) bs := by
    rcases h with h | ⟨s, h⟩ <;> subst h <;> rfl
  have hmain : append_all log (b :: bs) = .valid ((b :: bs).map record_to_json) := by
    rw [hstep, append_all_from_valid]
    simp
  exact ⟨hmain, by rw [hmain]; simp [log_entries]⟩

/-- Witness for C7: one record appended over a corrupt log file. -/
theorem c7_witness :
    append_all (.corrupt "garbage bytes") [record0]
        = .valid ([record0].map record_to_json)
    ∧ (log_entries (append_all (.corrupt "garbage bytes") [record0])).length
        = [record0].length :=
  c7_sequential_append_durable (.corrupt "garbage bytes") record0 []
    (Or.inr ⟨"garbage bytes", rfl⟩)

end Soulmaker
